import Mathlib

/-!
Verification of the SecureFlow repository-scanning subsystem: a shallow
embedding of the scanner adapters in `backend/scanners` (`github_scanner.py`,
`smart_dast_scanner.py`, `nuclei_scanner.py`, `zap_scanner.py`) together with
theorems about their behaviour.

External effects (subprocesses, the network, the container runtime, the
filesystem, the clock) are modelled as explicit oracle structures; the Python
dictionaries the adapters return are modelled as Lean structures with optional
fields; a Python function that may raise is modelled as returning
`Except String`.  Timestamp fields (`datetime.now()`) are omitted from the
embedding, as are log statements.
-/

namespace SecureFlow

/-! ## Severity normalization (github_scanner.py, nuclei_scanner.py, zap_scanner.py) -/

/-- Python `str.upper()` on the ASCII severity vocabulary, written over the
character list so that it evaluates by structural recursion. -/
def pyUpper (s : String) : String := ⟨s.data.map Char.toUpper⟩

/-- Python `str.startswith(pre)`, written over the character lists. -/
def pyStartsWith (s pre : String) : Bool := pre.data.isPrefixOf s.data

/-- The four canonical severity values of a normalized finding. -/
def canonicalSeverities : List String := ["CRITICAL", "HIGH", "MEDIUM", "LOW"]

/-- Whether a severity string is one of the four canonical values. -/
def isCanonicalSeverity (s : String) : Bool := canonicalSeverities.contains s

/-- github_scanner.py line 242, `SemgrepScanner.scan`:
`finding.get("extra", {}).get("severity", "MEDIUM").upper()` — the severity
key may be absent (modelled as `none`), in which case `"MEDIUM"` is used;
otherwise the raw tool string is uppercased. -/
def semgrepNormalizeSeverity (raw : Option String) : String :=
  pyUpper (raw.getD "MEDIUM")

/-- nuclei_scanner.py line 140, `NucleiScanner.scan`:
`finding.get("info", {}).get("severity", "MEDIUM").upper()`. -/
def nucleiNormalizeSeverity (raw : Option String) : String :=
  pyUpper (raw.getD "MEDIUM")

/-- zap_scanner.py lines 151-159, `ZAPScanner._map_zap_risk`: the dictionary
lookup `mapping.get(str(risk_code), 'LOW')` as an if-chain. -/
def mapZapRisk (riskCode : String) : String :=
  if riskCode = "3" then "CRITICAL"
  else if riskCode = "2" then "HIGH"
  else if riskCode = "1" then "MEDIUM"
  else if riskCode = "0" then "LOW"
  else "LOW"

/-- The case variants of the four-level severity vocabulary that the external
tools emit for CRITICAL/HIGH/MEDIUM/LOW findings. -/
def fourLevelSeverityInputs : List String :=
  ["critical", "Critical", "CRITICAL", "high", "High", "HIGH",
   "medium", "Medium", "MEDIUM", "low", "Low", "LOW"]

/-! ## Clone URL construction (github_scanner.py lines 51-59) -/

/-- github_scanner.py lines 51-59, `GitHubScanner.clone_repository`: the clone
URL starts as the repository URL; when a token is supplied and the URL starts
with the expected `https://github.com/` prefix, that prefix is rewritten to
embed the token into the authority (`str.replace`, all occurrences); a token
supplied with any other URL shape leaves the clone URL unchanged. -/
def buildCloneUrl (repoUrl : String) (token : Option String) : String :=
  match token with
  | none => repoUrl
  | some t =>
    if pyStartsWith repoUrl "https://github.com/" then
      repoUrl.replace "https://github.com/" ("https://" ++ t ++ "@github.com/")
    else
      repoUrl

/-! ## Theorems for severity normalization and clone-URL token scoping -/

/-- Helper: `mapZapRisk` only ever produces one of the four canonical values. -/
theorem mapZapRisk_canonical (r : String) : isCanonicalSeverity (mapZapRisk r) = true := by
  unfold mapZapRisk
  split
  · decide
  · split
    · decide
    · split
      · decide
      · split <;> decide

/-- C2: the claim that every normalized severity is one of
{CRITICAL, HIGH, MEDIUM, LOW} and that unknown strings map to MEDIUM is false:
the Semgrep adapter merely uppercases the tool severity (Semgrep itself emits
INFO/WARNING/ERROR), so the unrecognized input "INFO" normalizes to "INFO",
which is not canonical and is not "MEDIUM". -/
theorem semgrep_severity_escapes_canonical_set :
    semgrepNormalizeSeverity (some "INFO") = "INFO" ∧
    isCanonicalSeverity "INFO" = false ∧
    semgrepNormalizeSeverity (some "INFO") ≠ "MEDIUM" := by
  refine ⟨by decide, by decide, by decide⟩

/-- C2 (amended): case variants of the four-level vocabulary do normalize into
the canonical set, and an absent severity field defaults to MEDIUM; the ZAP
risk-code mapping always lands in the canonical set, but maps unknown risk
codes to LOW (not MEDIUM); unrecognized severity strings of the other two
adapters pass through uppercased instead of mapping to MEDIUM. -/
theorem severity_normalization_amended (s : String) (hs : s ∈ fourLevelSeverityInputs)
    (r : String) :
    isCanonicalSeverity (semgrepNormalizeSeverity (some s)) = true ∧
    isCanonicalSeverity (nucleiNormalizeSeverity (some s)) = true ∧
    semgrepNormalizeSeverity none = "MEDIUM" ∧
    nucleiNormalizeSeverity none = "MEDIUM" ∧
    isCanonicalSeverity (mapZapRisk r) = true ∧
    mapZapRisk "unknown-code" = "LOW" := by
  refine ⟨?_, ?_, by decide, by decide, mapZapRisk_canonical r, by decide⟩
  · fin_cases hs <;> decide
  · fin_cases hs <;> decide

/-- Witness for `severity_normalization_amended` at s = "Critical", r = "7". -/
theorem severity_normalization_amended_witness :
    ("Critical" ∈ fourLevelSeverityInputs) ∧
    (isCanonicalSeverity (semgrepNormalizeSeverity (some "Critical")) = true ∧
     isCanonicalSeverity (nucleiNormalizeSeverity (some "Critical")) = true ∧
     semgrepNormalizeSeverity none = "MEDIUM" ∧
     nucleiNormalizeSeverity none = "MEDIUM" ∧
     isCanonicalSeverity (mapZapRisk "7") = true ∧
     mapZapRisk "unknown-code" = "LOW") :=
  ⟨by decide, severity_normalization_amended "Critical" (by decide) "7"⟩

/-- C9: the access token is embedded only for URLs with the
`https://github.com/` prefix; for every other URL the constructed clone URL is
identical whether or not a token is supplied, and equals the repository URL
itself, so the token never reaches an unrecognized remote. -/
theorem token_never_reaches_unrecognized_remote (url t : String)
    (h : pyStartsWith url "https://github.com/" = false) :
    buildCloneUrl url (some t) = buildCloneUrl url none ∧
    buildCloneUrl url none = url := by
  unfold buildCloneUrl
  simp [h]

/-- Witness for `token_never_reaches_unrecognized_remote` at a GitLab URL. -/
theorem token_never_reaches_unrecognized_remote_witness :
    (pyStartsWith "https://gitlab.example.com/a/b" "https://github.com/" = false) ∧
    (buildCloneUrl "https://gitlab.example.com/a/b" (some "SECRET") =
       buildCloneUrl "https://gitlab.example.com/a/b" none ∧
     buildCloneUrl "https://gitlab.example.com/a/b" none =
       "https://gitlab.example.com/a/b") :=
  ⟨by decide, token_never_reaches_unrecognized_remote
    "https://gitlab.example.com/a/b" "SECRET" (by decide)⟩

/-! ## Normalized scan results (the result dictionaries the adapters return) -/

/-- The `summary` sub-dictionary of every adapter result. -/
structure Summary where
  total : Nat
  critical : Nat
  high : Nat
  medium : Nat
  low : Nat
  deriving Repr, DecidableEq

/-- One normalized finding; the union of the per-scanner finding fields, with
the fields a given scanner does not set left at their defaults. -/
structure Finding where
  title : String
  severity : String
  description : String := ""
  file : String := ""
  line : Nat := 0
  packageName : String := ""
  installedVersion : String := ""
  recommendation : String := ""
  url : String := ""
  deriving Repr, DecidableEq

/-- The result dictionary of one tool invocation: tool identity, scan type,
findings, summary, plus the optional `error` / `note` fields and the extra
guidance fields only the tier-4 fallback sets.  Timestamps are omitted. -/
structure ScanToolResult where
  tool : String
  scanType : String
  vulnerabilities : List Finding := []
  summary : Summary := ⟨0, 0, 0, 0, 0⟩
  error : Option String := none
  note : Option String := none
  targetUrl : Option String := none
  instructions : List (String × String) := []
  supportedDeployments : List String := []
  supportedFrameworks : List String := []
  deriving Repr, DecidableEq

/-- The summary computation every adapter performs over its converted
finding list (counts by exact severity string). -/
def mkSummary (vulns : List Finding) : Summary :=
  { total := vulns.length
    critical := (vulns.filter (fun v => v.severity == "CRITICAL")).length
    high := (vulns.filter (fun v => v.severity == "HIGH")).length
    medium := (vulns.filter (fun v => v.severity == "MEDIUM")).length
    low := (vulns.filter (fun v => v.severity == "LOW")).length }

/-! ## Workspace model (the cloned repository directory) -/

/-- The parsed `scripts` section of `package.json`; `pkg.get("scripts", {})`
followed by `scripts.get("dev", "")` etc., so each script defaults to "". -/
structure NodeScripts where
  dev : String := ""
  start : String := ""
  serve : String := ""
  deriving Repr, DecidableEq

/-- The cloned repository: the set of files under the clone root (paths
relative to the root) and the outcome of parsing `package.json`
(`none` models `json.load` raising, which the source catches). -/
structure Workspace where
  files : List String
  packageJsonScripts : Option NodeScripts := none
  deriving Repr, DecidableEq

/-- A Python exception value. -/
inductive PyError where
  | typeError (msg : String)
  deriving Repr, DecidableEq

/-- Equality of `Except` values is decidable when it is on both sides. -/
instance {ε α : Type} [DecidableEq ε] [DecidableEq α] : DecidableEq (Except ε α) := fun x y =>
  match x, y with
  | .ok a, .ok b =>
    if h : a = b then isTrue (by rw [h]) else isFalse fun hc => h (Except.ok.inj hc)
  | .error a, .error b =>
    if h : a = b then isTrue (by rw [h]) else isFalse fun hc => h (Except.error.inj hc)
  | .ok _, .error _ => isFalse fun hc => Except.noConfusion hc
  | .error _, .ok _ => isFalse fun hc => Except.noConfusion hc

/-- The exception CPython raises for `any(a, b)`. -/
def anyTwoArgsError : PyError := .typeError "any() takes exactly one argument (2 given)"

/-- Whether `pat` occurs as a contiguous run inside the list. -/
def containsPattern (pat : List Char) : List Char → Bool
  | [] => pat.isEmpty
  | c :: cs => pat.isPrefixOf (c :: cs) || containsPattern pat cs

/-- Python `needle in haystack` on strings. -/
def pyContains (haystack needle : String) : Bool := containsPattern needle.data haystack.data

/-! ## Project-type classifier (smart_dast_scanner.py lines 142-187) -/

/-- The checks that follow the `package.json` branch of
`SmartDASTScanner._detect_project_type` (reached both when `package.json` is
absent and when parsing it raised): static site, then the PHP check.  The PHP
check is `any((repo_path / "index.php").exists(), (repo_path / "composer.json").exists())`
— `any` applied to two arguments — which raises `TypeError` unconditionally,
so the final `return ("unknown", {})` of the source is unreachable. -/
def detectProjectTypeTail (ws : Workspace) : Except PyError (String × Option Nat) :=
  if "index.html" ∈ ws.files then .ok ("static", some 8080)
  else .error anyTwoArgsError

/-- smart_dast_scanner.py lines 142-187, `SmartDASTScanner._detect_project_type`:
returns the `(project_type, config)` pair, with the config modelled as its
optional `port` entry (the `docker` branch sets no port).  The Python branch
for a project with Python markers but no `manage.py` evaluates
`any((repo_path / "app.py").exists(), (repo_path / "wsgi.py").exists())` —
`any` applied to two arguments — which raises `TypeError`, so neither the
`("flask", 5000)` nor the `("python", 8000)` return is reachable. -/
def detectProjectType (ws : Workspace) : Except PyError (String × Option Nat) :=
  if "Dockerfile" ∈ ws.files then .ok ("docker", none)
  else if "requirements.txt" ∈ ws.files ∨ "pyproject.toml" ∈ ws.files then
    if "manage.py" ∈ ws.files then .ok ("django", some 8000)
    else .error anyTwoArgsError
  else if "package.json" ∈ ws.files then
    match ws.packageJsonScripts with
    | some scripts =>
      if pyContains scripts.dev "next" then .ok ("nextjs", some 3000)
      else if pyContains scripts.start "react-scripts" then .ok ("react", some 3000)
      else if pyContains scripts.serve "vue-cli-service" then .ok ("vue", some 8080)
      else .ok ("nodejs", some 3000)
    | none => detectProjectTypeTail ws
  else detectProjectTypeTail ws

/-- smart_dast_scanner.py lines 281-331, `SmartDASTScanner._generate_dockerfile`
(the unused `repo_path` parameter is dropped). -/
def generateDockerfile (projectType : String) : Option String :=
  if projectType = "flask" then
    some "FROM python:3.11-slim\nWORKDIR /app\nCOPY requirements.txt .\nRUN pip install --no-cache-dir -r requirements.txt\nCOPY . .\nENV FLASK_APP=app.py\nEXPOSE 5000\nCMD [\"flask\", \"run\", \"--host=0.0.0.0\"]\n"
  else if projectType = "django" then
    some "FROM python:3.11-slim\nWORKDIR /app\nCOPY requirements.txt .\nRUN pip install --no-cache-dir -r requirements.txt\nCOPY . .\nRUN python manage.py migrate --no-input\nEXPOSE 8000\nCMD [\"python\", \"manage.py\", \"runserver\", \"0.0.0.0:8000\"]\n"
  else if projectType = "nodejs" ∨ projectType = "react" ∨ projectType = "nextjs" then
    some "FROM node:18-alpine\nWORKDIR /app\nCOPY package*.json ./\nRUN npm install\nCOPY . .\nRUN npm run build || true\nEXPOSE 3000\nCMD [\"npm\", \"start\"]\n"
  else if projectType = "static" then
    some "FROM nginx:alpine\nCOPY . /usr/share/nginx/html\nEXPOSE 8080\nCMD [\"nginx\", \"-g\", \"daemon off;\"]\n"
  else if projectType = "php" then
    some "FROM php:8.1-apache\nCOPY . /var/www/html/\nEXPOSE 80\nCMD [\"apache2-foreground\"]\n"
  else none

/-! ## Deployment detector (smart_dast_scanner.py lines 89-140) -/

/-- The character sequence of the pattern `github\.com/`. -/
def githubHostPrefix : List Char := "github.com/".data

/-- Strip the optional lazy `(?:\.git)?$` suffix: the repo group keeps the
shortest match, so ".git" is stripped exactly when something nonempty is left. -/
def stripLazyGitSuffix (tail : List Char) : List Char :=
  if 4 < tail.length ∧ tail.drop (tail.length - 4) = ['.', 'g', 'i', 't'] then
    tail.take (tail.length - 4)
  else tail

/-- Match `([^/]+)/([^/]+?)(?:\.git)?$` against the rest of the URL after a
`github.com/` occurrence: one slash separating two nonempty slash-free groups,
anchored at the end of the string. -/
def matchOwnerRepo (rest : List Char) : Option (String × String) :=
  let owner := rest.takeWhile (· ≠ '/')
  match rest.dropWhile (· ≠ '/') with
  | '/' :: tail =>
    if owner ≠ [] ∧ tail ≠ [] ∧ ¬ tail.contains '/' then
      some (⟨owner⟩, ⟨stripLazyGitSuffix tail⟩)
    else none
  | _ => none

/-- `re.search` of the pattern `github\.com/([^/]+)/([^/]+?)(?:\.git)?$`:
try each occurrence of `github.com/` from the left and keep the first one
whose remainder matches the end-anchored owner/repo groups. -/
def findGithubMatch : List Char → Option (String × String)
  | [] => none
  | c :: cs =>
    if githubHostPrefix.isPrefixOf (c :: cs) then
      match matchOwnerRepo ((c :: cs).drop githubHostPrefix.length) with
      | some p => some p
      | none => findGithubMatch cs
    else findGithubMatch cs

/-- smart_dast_scanner.py line 97: owner/repo extraction from the repository URL. -/
def extractOwnerRepo (url : String) : Option (String × String) :=
  findGithubMatch url.data

/-- Python `repo.replace('.git', '')`: remove every (leftmost, non-overlapping)
occurrence of ".git". -/
def removeGitOccurrences : List Char → List Char
  | '.' :: 'g' :: 'i' :: 't' :: rest => removeGitOccurrences rest
  | c :: rest => c :: removeGitOccurrences rest
  | [] => []

/-- smart_dast_scanner.py line 102: `repo = repo.replace('.git', '')`. -/
def pyRemoveGit (s : String) : String := ⟨removeGitOccurrences s.data⟩

/-- smart_dast_scanner.py lines 89-140, `SmartDASTScanner._detect_deployment`:
derive the platform candidate URLs in the fixed priority order and return the
first the liveness oracle reports alive (`branch` is accepted and unused, as
in the source). -/
def detectDeployment (alive : String → Bool) (repoUrl branch : String) : Option String :=
  match extractOwnerRepo repoUrl with
  | none => none
  | some (owner, repo0) =>
    let repo := pyRemoveGit repo0
    let candidates := [
      "https://" ++ owner ++ ".github.io/" ++ repo,
      "https://" ++ owner ++ ".github.io",
      "https://" ++ repo ++ ".vercel.app",
      "https://" ++ repo ++ ".netlify.app",
      "https://" ++ repo ++ ".onrender.com",
      "https://" ++ repo ++ ".herokuapp.com"]
    candidates.find? (fun u => alive u)

/-! ## Container deployment tier (smart_dast_scanner.py lines 189-279) -/

/-- One invocation of the container runtime, as recorded by the embedding. -/
inductive DockerCmd where
  | build (image : String)
  | run (image : String) (port : Nat)
  | stop (containerId : String)
  | rm (containerId : String)
  | rmi (image : String)
  deriving Repr, DecidableEq

/-- The oracle for everything outside the orchestrator: HTTP liveness probes,
the external DAST tool (`scan_url`, which may raise — `.error`), and the
container runtime (availability, build/run exit codes, `docker run` stdout,
whether each teardown command exceeds its 30 s timeout).  `now` is the
timestamp string used in the session-unique image name. -/
structure DastEnv where
  alive : String → Bool
  scanUrl : String → Except String ScanToolResult
  dockerAvailable : Bool := false
  buildExit : Int := 0
  runExit : Int := 0
  runStdout : String := ""
  now : String := ""
  stopTimesOut : Bool := false
  rmTimesOut : Bool := false
  rmiTimesOut : Bool := false

/-- What one `_docker_deploy_and_scan` call produced: its return value, the
workspace after it ran, and the container-runtime commands it issued. -/
structure DockerOutcome where
  result : Option ScanToolResult
  workspace : Workspace
  trace : List DockerCmd
  deriving Repr

/-- Writing the generated Dockerfile into the clone root. -/
def addDockerfile (ws : Workspace) : Workspace :=
  { ws with files := "Dockerfile" :: ws.files }

/-- smart_dast_scanner.py lines 210-220: the workspace after the Dockerfile
step — unchanged when the clone has a Dockerfile, extended by the generated
one otherwise, `none` when no template exists for the project type. -/
def dockerWorkspaceAfter (ws : Workspace) (ptype : String) : Option Workspace :=
  if "Dockerfile" ∈ ws.files then some ws
  else
    match generateDockerfile ptype with
    | none => none
    | some _ => some (addDockerfile ws)

/-- smart_dast_scanner.py lines 189-279, `SmartDASTScanner._docker_deploy_and_scan`:
classify the project, synthesize a Dockerfile when the clone lacks one, build,
run, wait, scan `http://localhost:<port>`, then issue `docker stop`, `docker rm`
and `docker rmi`.  Every exception inside the body — including one raised by
`scan_url` — is caught by the final handler and converted to `None`; the three
teardown commands are ordinary statements after the scan call, not a `finally`
block, so they run only on the path where `scan_url` returned normally and no
earlier teardown command timed out. -/
def dockerDeployAndScan (env : DastEnv) (ws : Workspace) : DockerOutcome :=
  if ¬ env.dockerAvailable then ⟨none, ws, []⟩
  else
    match detectProjectType ws with
    | .error _ => ⟨none, ws, []⟩
    | .ok (ptype, cfg) =>
      if ptype = "unknown" then ⟨none, ws, []⟩
      else
        match dockerWorkspaceAfter ws ptype with
        | none => ⟨none, ws, []⟩
        | some ws2 =>
          if env.buildExit ≠ 0 then ⟨none, ws2, [.build ("dast-scan-" ++ env.now)]⟩
          else if env.runExit ≠ 0 then
            ⟨none, ws2,
              [.build ("dast-scan-" ++ env.now),
               .run ("dast-scan-" ++ env.now) (cfg.getD 8080)]⟩
          else
            match env.scanUrl ("http://localhost:" ++ toString (cfg.getD 8080)) with
            | .error _ =>
              ⟨none, ws2,
                [.build ("dast-scan-" ++ env.now),
                 .run ("dast-scan-" ++ env.now) (cfg.getD 8080)]⟩
            | .ok res =>
              if env.stopTimesOut then
                ⟨none, ws2,
                  [.build ("dast-scan-" ++ env.now),
                   .run ("dast-scan-" ++ env.now) (cfg.getD 8080),
                   .stop env.runStdout]⟩
              else if env.rmTimesOut then
                ⟨none, ws2,
                  [.build ("dast-scan-" ++ env.now),
                   .run ("dast-scan-" ++ env.now) (cfg.getD 8080),
                   .stop env.runStdout, .rm env.runStdout]⟩
              else if env.rmiTimesOut then
                ⟨none, ws2,
                  [.build ("dast-scan-" ++ env.now),
                   .run ("dast-scan-" ++ env.now) (cfg.getD 8080),
                   .stop env.runStdout, .rm env.runStdout,
                   .rmi ("dast-scan-" ++ env.now)]⟩
              else
                ⟨some res, ws2,
                  [.build ("dast-scan-" ++ env.now),
                   .run ("dast-scan-" ++ env.now) (cfg.getD 8080),
                   .stop env.runStdout, .rm env.runStdout,
                   .rmi ("dast-scan-" ++ env.now)]⟩

/-! ## Tier-4 fallback and the tiered orchestrator (smart_dast_scanner.py lines 35-77, 333-364) -/

/-- smart_dast_scanner.py lines 333-364, `SmartDASTScanner._graceful_fallback`
(the `repo_url` parameter is accepted and unused, as in the source). -/
def gracefulFallback (repoUrl : String) : ScanToolResult :=
  { tool := "Smart DAST Scanner"
    scanType := "DAST"
    vulnerabilities := []
    summary := ⟨0, 0, 0, 0, 0⟩
    note := some "DAST scanning not possible"
    instructions := [
      ("tier1", "Provide a live URL in the 'DAST URL' field for immediate scanning"),
      ("tier2", "Deploy to GitHub Pages, Vercel, or Netlify for automatic detection"),
      ("tier3", "Add a Dockerfile to enable local Docker-based scanning"),
      ("tier4", "DAST requires a running application - consider manual deployment")]
    supportedDeployments := [
      "GitHub Pages (username.github.io/repo)",
      "Vercel (repo.vercel.app)",
      "Netlify (repo.netlify.app)",
      "Render (repo.onrender.com)",
      "Heroku (repo.herokuapp.com)"]
    supportedFrameworks := [
      "Flask (Python)",
      "Django (Python)",
      "Node.js / Express",
      "React / Next.js",
      "Vue.js",
      "Static HTML",
      "PHP / Laravel"] }

/-- smart_dast_scanner.py lines 35-77, `SmartDASTScanner.scan`: the four-tier
orchestrator.  Tier 1 runs when the provided URL is truthy (non-empty); a dead
provided URL falls through.  Tier 2 re-probes the detected URL and scans it.
Tier 3 is the container path (its own exceptions are already absorbed inside
`dockerDeployAndScan`).  Tier 4 is the fallback.  `scan_url` calls in tiers 1
and 2 are not wrapped in a handler, so an exception there propagates
(`.error`).  Returns the result together with the workspace after the call.
This helper is the tail of the source function from line 66 on: the container
tier, then the fallback when it yields `None`. -/
def smartScanTier34 (env : DastEnv) (ws : Workspace) (repoUrl : String) :
    Except String ScanToolResult × Workspace :=
  match (dockerDeployAndScan env ws).result with
  | some r => (.ok r, (dockerDeployAndScan env ws).workspace)
  | none => (.ok (gracefulFallback repoUrl), (dockerDeployAndScan env ws).workspace)

/-- smart_dast_scanner.py lines 58-64: tier 2 — detect a deployment, re-probe
it, scan it when alive, otherwise continue with tiers 3 and 4. -/
def smartScanTier2 (env : DastEnv) (ws : Workspace) (repoUrl branch : String) :
    Except String ScanToolResult × Workspace :=
  match detectDeployment env.alive repoUrl branch with
  | some detected =>
    if env.alive detected then (env.scanUrl detected, ws)
    else smartScanTier34 env ws repoUrl
  | none => smartScanTier34 env ws repoUrl

/-- smart_dast_scanner.py lines 35-57: tier 1 — when the provided URL is
truthy (non-`None` and non-empty) and alive, scan it; a dead provided URL
falls through to tier 2. -/
def smartScan (env : DastEnv) (ws : Workspace) (repoUrl branch : String)
    (providedUrl : Option String) : Except String ScanToolResult × Workspace :=
  match providedUrl with
  | some u =>
    if u ≠ "" then
      if env.alive u then (env.scanUrl u, ws) else smartScanTier2 env ws repoUrl branch
    else smartScanTier2 env ws repoUrl branch
  | none => smartScanTier2 env ws repoUrl branch

/-! ## Theorems about the project-type classifier and the container tier -/

/-- C8: the claim that a Python project with `requirements.txt` or
`pyproject.toml`, no Dockerfile, no `manage.py`, and an `app.py` or `wsgi.py`
entrypoint classifies as ("flask", port 5000) is contradicted by the code:
`_detect_project_type` evaluates `any(e1, e2)` with two arguments on that
branch, which raises `TypeError`, so the classifier raises instead of
returning a value. -/
theorem flask_branch_raises_typeerror :
    detectProjectType ⟨["requirements.txt", "app.py"], none⟩ =
      .error (PyError.typeError "any() takes exactly one argument (2 given)") ∧
    detectProjectType ⟨["pyproject.toml", "wsgi.py"], none⟩ =
      .error (PyError.typeError "any() takes exactly one argument (2 given)") := by
  exact ⟨by decide, by decide⟩

/-- A Django-classified workspace without a Dockerfile, used to exhibit the
clone mutation of the container tier. -/
def wsDjango : Workspace := ⟨["requirements.txt", "manage.py"], none⟩

/-- An environment in which the container runtime is available but the image
build fails; no URL is alive and the external DAST tool is never reached. -/
def envBuildFails : DastEnv :=
  { alive := fun _ => false
    scanUrl := fun _ => .error "scan tool unavailable"
    dockerAvailable := true
    buildExit := 1
    runStdout := ""
    now := "t" }

/-- C7 counterexample: the dynamic adapter does mutate the clone.  On a Django
workspace with no Dockerfile, `_docker_deploy_and_scan` writes a generated
Dockerfile into the repository root before building, so the file set after the
dynamic scan invocation differs from the file set before it (here the build
then fails, yet the written Dockerfile remains). -/
theorem dynamic_tier_mutates_clone :
    "Dockerfile" ∉ wsDjango.files ∧
    "Dockerfile" ∈ (smartScan envBuildFails wsDjango
        "https://example.org/alice/app" "main" none).2.files ∧
    (smartScan envBuildFails wsDjango "https://example.org/alice/app" "main" none).2 ≠
      wsDjango := by
  exact ⟨by decide, by decide, by decide⟩

/-- Helper: the Dockerfile step returns the workspace unchanged or with the
generated Dockerfile prepended, never anything else. -/
theorem dockerWorkspaceAfter_eq {ws w : Workspace} {pt : String}
    (h : dockerWorkspaceAfter ws pt = some w) : w = ws ∨ w = addDockerfile ws := by
  unfold dockerWorkspaceAfter at h
  split at h
  · exact Or.inl (Option.some.inj h).symm
  · split at h
    · exact Option.noConfusion h
    · exact Or.inr (Option.some.inj h).symm

/-- Helper: the container tier returns the input workspace or extends it by
the generated Dockerfile. -/
theorem dockerDeployAndScan_workspace (e : DastEnv) (w : Workspace) :
    (dockerDeployAndScan e w).workspace = w ∨
    (dockerDeployAndScan e w).workspace = addDockerfile w := by
  unfold dockerDeployAndScan
  split
  · exact Or.inl rfl
  · split
    · exact Or.inl rfl
    · split
      · exact Or.inl rfl
      · split
        · exact Or.inl rfl
        · next ws2 heq =>
          have h2 := dockerWorkspaceAfter_eq heq
          repeat' split
          all_goals exact h2

/-- Helper: frame property of tiers 3 and 4. -/
theorem smartScanTier34_workspace (e : DastEnv) (w : Workspace) (r : String) :
    (smartScanTier34 e w r).2 = w ∨ (smartScanTier34 e w r).2 = addDockerfile w := by
  unfold smartScanTier34
  split <;> exact dockerDeployAndScan_workspace e w

/-- Helper: frame property of tier 2 and below. -/
theorem smartScanTier2_workspace (e : DastEnv) (w : Workspace) (r b : String) :
    (smartScanTier2 e w r b).2 = w ∨ (smartScanTier2 e w r b).2 = addDockerfile w := by
  unfold smartScanTier2
  split
  · split
    · exact Or.inl rfl
    · exact smartScanTier34_workspace e w r
  · exact smartScanTier34_workspace e w r

/-- Helper: frame property of the whole orchestrator. -/
theorem smartScan_workspace (e : DastEnv) (w : Workspace) (r b : String)
    (p : Option String) :
    (smartScan e w r b p).2 = w ∨ (smartScan e w r b p).2 = addDockerfile w := by
  unfold smartScan
  split
  · split
    · split
      · exact Or.inl rfl
      · exact smartScanTier2_workspace e w r b
    · exact smartScanTier2_workspace e w r b
  · exact smartScanTier2_workspace e w r b

/-- Helper: with a Dockerfile already present, the container tier leaves the
workspace unchanged. -/
theorem dockerDeployAndScan_workspace_fixed (e : DastEnv) {w : Workspace}
    (hD : "Dockerfile" ∈ w.files) : (dockerDeployAndScan e w).workspace = w := by
  unfold dockerDeployAndScan
  simp only [dockerWorkspaceAfter, hD, if_true]
  repeat' split
  all_goals rfl

/-- C7 (amended): the workspace after a dynamic-scan invocation is either
unchanged or extended by exactly the generated `Dockerfile` entry; when the
clone already has a Dockerfile the file set is unchanged.  (The static and
dependency adapters are read-only by construction: their embeddings consume
the workspace and return only a result.) -/
theorem dynamic_tier_workspace_frame (env : DastEnv) (ws : Workspace)
    (repoUrl branch : String) (providedUrl : Option String)
    (hD : "Dockerfile" ∈ ws.files) :
    (smartScan env ws repoUrl branch providedUrl).2 = ws ∧
    ∀ env2 ws2 repoUrl2 branch2 providedUrl2,
      (smartScan env2 ws2 repoUrl2 branch2 providedUrl2).2 = ws2 ∨
      (smartScan env2 ws2 repoUrl2 branch2 providedUrl2).2 = addDockerfile ws2 := by
  refine ⟨?_, fun e2 w2 r2 b2 p2 => smartScan_workspace e2 w2 r2 b2 p2⟩
  have hfix : (dockerDeployAndScan env ws).workspace = ws :=
    dockerDeployAndScan_workspace_fixed env hD
  unfold smartScan smartScanTier2 smartScanTier34
  repeat' split
  all_goals first | rfl | exact hfix

/-- Witness for `dynamic_tier_workspace_frame`: a workspace that already
carries a Dockerfile is returned unchanged. -/
theorem dynamic_tier_workspace_frame_witness :
    ("Dockerfile" ∈ (Workspace.mk ["Dockerfile"] none).files) ∧
    ((smartScan envBuildFails ⟨["Dockerfile"], none⟩ "u" "b" none).2 =
        ⟨["Dockerfile"], none⟩ ∧
     ∀ env2 ws2 repoUrl2 branch2 providedUrl2,
       (smartScan env2 ws2 repoUrl2 branch2 providedUrl2).2 = ws2 ∨
       (smartScan env2 ws2 repoUrl2 branch2 providedUrl2).2 = addDockerfile ws2) :=
  ⟨by decide, dynamic_tier_workspace_frame envBuildFails ⟨["Dockerfile"], none⟩
    "u" "b" none (by decide)⟩

/-- The workspace and environment of the teardown counterexample: the clone
ships its own Dockerfile, the runtime is available, build and run succeed, and
the dynamic scan step raises. -/
def envScanRaises : DastEnv :=
  { alive := fun _ => false
    scanUrl := fun _ => .error "ZAP crashed"
    dockerAvailable := true
    runStdout := "cid123"
    now := "20250101" }

/-- C1 counterexample: teardown is not unconditional.  With the image built
and the container started (build and run both exit 0), a dynamic-scan
exception reaches the handler that returns `None`: the recorded runtime trace
is exactly `[docker build, docker run]` — no stop, no container removal, no
image removal is ever attempted. -/
theorem teardown_skipped_on_scan_exception :
    (dockerDeployAndScan envScanRaises ⟨["Dockerfile"], none⟩).trace =
      [DockerCmd.build "dast-scan-20250101", DockerCmd.run "dast-scan-20250101" 8080] ∧
    (dockerDeployAndScan envScanRaises ⟨["Dockerfile"], none⟩).result = none ∧
    ∀ c, DockerCmd.stop c ∉ (dockerDeployAndScan envScanRaises ⟨["Dockerfile"], none⟩).trace ∧
         DockerCmd.rm c ∉ (dockerDeployAndScan envScanRaises ⟨["Dockerfile"], none⟩).trace ∧
         DockerCmd.rmi c ∉ (dockerDeployAndScan envScanRaises ⟨["Dockerfile"], none⟩).trace := by
  have ht : (dockerDeployAndScan envScanRaises ⟨["Dockerfile"], none⟩).trace =
      [DockerCmd.build "dast-scan-20250101", DockerCmd.run "dast-scan-20250101" 8080] := by
    decide
  refine ⟨ht, by decide, ?_⟩
  intro c
  rw [ht]
  refine ⟨?_, ?_, ?_⟩ <;> simp

/-- C1 (amended): the three teardown commands are attempted exactly on the
path where the dynamic scan returns normally (and no earlier teardown command
times out); when the dynamic scan raises, the operation returns `None` with no
teardown command issued, leaking the container and the image. -/
theorem teardown_only_on_scan_success (e1 e2 : DastEnv) (ws : Workspace)
    (hD : "Dockerfile" ∈ ws.files)
    (h1a : e1.dockerAvailable = true) (h1b : e1.buildExit = 0) (h1c : e1.runExit = 0)
    (h1s : ∃ r, e1.scanUrl "http://localhost:8080" = .ok r)
    (h1t : e1.stopTimesOut = false) (h1u : e1.rmTimesOut = false)
    (h1v : e1.rmiTimesOut = false)
    (h2a : e2.dockerAvailable = true) (h2b : e2.buildExit = 0) (h2c : e2.runExit = 0)
    (h2s : ∃ m, e2.scanUrl "http://localhost:8080" = .error m) :
    ((dockerDeployAndScan e1 ws).result.isSome = true ∧
     DockerCmd.stop e1.runStdout ∈ (dockerDeployAndScan e1 ws).trace ∧
     DockerCmd.rm e1.runStdout ∈ (dockerDeployAndScan e1 ws).trace ∧
     DockerCmd.rmi ("dast-scan-" ++ e1.now) ∈ (dockerDeployAndScan e1 ws).trace) ∧
    ((dockerDeployAndScan e2 ws).result = none ∧
     ∀ c, DockerCmd.stop c ∉ (dockerDeployAndScan e2 ws).trace ∧
          DockerCmd.rm c ∉ (dockerDeployAndScan e2 ws).trace ∧
          DockerCmd.rmi c ∉ (dockerDeployAndScan e2 ws).trace) := by
  obtain ⟨r, hr⟩ := h1s
  obtain ⟨m, hm⟩ := h2s
  have hdet2 : detectProjectType ws = .ok ("docker", none) := by
    unfold detectProjectType; rw [if_pos hD]
  have hws : dockerWorkspaceAfter ws "docker" = some ws := by
    unfold dockerWorkspaceAfter; rw [if_pos hD]
  have hurl : ("http://localhost:" ++ toString (8080 : Nat)) = "http://localhost:8080" := rfl
  have h1 : dockerDeployAndScan e1 ws =
      ⟨some r, ws,
       [.build ("dast-scan-" ++ e1.now), .run ("dast-scan-" ++ e1.now) 8080,
        .stop e1.runStdout, .rm e1.runStdout, .rmi ("dast-scan-" ++ e1.now)]⟩ := by
    unfold dockerDeployAndScan
    simp [hdet2, hws, h1a, h1b, h1c, hurl, hr, h1t, h1u, h1v]
  have h2 : dockerDeployAndScan e2 ws =
      ⟨none, ws,
       [DockerCmd.build ("dast-scan-" ++ e2.now),
        DockerCmd.run ("dast-scan-" ++ e2.now) 8080]⟩ := by
    unfold dockerDeployAndScan
    simp [hdet2, hws, h2a, h2b, h2c, hurl, hm]
  rw [h1, h2]
  refine ⟨⟨rfl, ?_, ?_, ?_⟩, rfl, ?_⟩
  · simp
  · simp
  · simp
  · intro c
    refine ⟨?_, ?_, ?_⟩ <;> simp

/-- Witness for `teardown_only_on_scan_success`. -/
theorem teardown_only_on_scan_success_witness :
    ("Dockerfile" ∈ (Workspace.mk ["Dockerfile"] none).files) ∧
    ((dockerDeployAndScan
        { alive := fun _ => false
          scanUrl := fun _ => .ok { tool := "Nuclei", scanType := "DAST" }
          dockerAvailable := true, runStdout := "cid123", now := "20250101" }
        ⟨["Dockerfile"], none⟩).result.isSome = true ∧
      DockerCmd.stop "cid123" ∈ (dockerDeployAndScan
        { alive := fun _ => false
          scanUrl := fun _ => .ok { tool := "Nuclei", scanType := "DAST" }
          dockerAvailable := true, runStdout := "cid123", now := "20250101" }
        ⟨["Dockerfile"], none⟩).trace ∧
      DockerCmd.rm "cid123" ∈ (dockerDeployAndScan
        { alive := fun _ => false
          scanUrl := fun _ => .ok { tool := "Nuclei", scanType := "DAST" }
          dockerAvailable := true, runStdout := "cid123", now := "20250101" }
        ⟨["Dockerfile"], none⟩).trace ∧
      DockerCmd.rmi ("dast-scan-" ++ "20250101") ∈ (dockerDeployAndScan
        { alive := fun _ => false
          scanUrl := fun _ => .ok { tool := "Nuclei", scanType := "DAST" }
          dockerAvailable := true, runStdout := "cid123", now := "20250101" }
        ⟨["Dockerfile"], none⟩).trace) ∧
    ((dockerDeployAndScan envScanRaises ⟨["Dockerfile"], none⟩).result = none ∧
     ∀ c, DockerCmd.stop c ∉ (dockerDeployAndScan envScanRaises ⟨["Dockerfile"], none⟩).trace ∧
          DockerCmd.rm c ∉ (dockerDeployAndScan envScanRaises ⟨["Dockerfile"], none⟩).trace ∧
          DockerCmd.rmi c ∉ (dockerDeployAndScan envScanRaises ⟨["Dockerfile"], none⟩).trace) :=
  ⟨by decide,
   (teardown_only_on_scan_success
      { alive := fun _ => false
        scanUrl := fun _ => .ok { tool := "Nuclei", scanType := "DAST" }
        dockerAvailable := true, runStdout := "cid123", now := "20250101" }
      envScanRaises ⟨["Dockerfile"], none⟩ (by decide)
      rfl rfl rfl ⟨_, rfl⟩ rfl rfl rfl rfl rfl rfl ⟨_, rfl⟩).1,
   (teardown_only_on_scan_success
      { alive := fun _ => false
        scanUrl := fun _ => .ok { tool := "Nuclei", scanType := "DAST" }
        dockerAvailable := true, runStdout := "cid123", now := "20250101" }
      envScanRaises ⟨["Dockerfile"], none⟩ (by decide)
      rfl rfl rfl ⟨_, rfl⟩ rfl rfl rfl rfl rfl rfl ⟨_, rfl⟩).2⟩

/-! ## Theorems about the tiered orchestrator -/

/-- C4: with a truthy but dead user URL and an alive auto-detected URL, the
orchestrator returns exactly the external scan of the detected URL — tier 2,
not the user URL and not a container result — and the workspace is untouched
(the container tier never ran). -/
theorem tier2_scan_after_dead_user_url (env : DastEnv) (ws : Workspace)
    (repoUrl branch u d : String)
    (hu : u ≠ "") (hdead : env.alive u = false)
    (hdet : detectDeployment env.alive repoUrl branch = some d)
    (halive : env.alive d = true) :
    smartScan env ws repoUrl branch (some u) = (env.scanUrl d, ws) := by
  unfold smartScan smartScanTier2
  simp [hu, hdead, hdet, halive]

/-- Concrete oracle for the tier-2 witness: only the detected GitHub Pages
URL is alive, and the external scanner labels its result with the target. -/
def envTier2 : DastEnv :=
  { alive := fun s => s == "https://alice.github.io"
    scanUrl := fun s => .ok { tool := "Nuclei", scanType := "DAST", targetUrl := some s } }

/-- Witness for `tier2_scan_after_dead_user_url`: the user URL is dead, the
org-page candidate is detected and alive, and the result is its scan. -/
theorem tier2_scan_after_dead_user_url_witness :
    ("http://dead.local" ≠ "" ∧
     envTier2.alive "http://dead.local" = false ∧
     detectDeployment envTier2.alive "https://github.com/alice/app" "main" =
       some "https://alice.github.io" ∧
     envTier2.alive "https://alice.github.io" = true) ∧
    smartScan envTier2 ⟨[], none⟩ "https://github.com/alice/app" "main"
        (some "http://dead.local") =
      (envTier2.scanUrl "https://alice.github.io", ⟨[], none⟩) :=
  ⟨⟨by decide, by decide, by decide, by decide⟩,
   tier2_scan_after_dead_user_url envTier2 ⟨[], none⟩
     "https://github.com/alice/app" "main" "http://dead.local"
     "https://alice.github.io" (by decide) (by decide) (by decide) (by decide)⟩

/-- C5: with no user URL, no alive deployment candidate, and a container tier
that yields no result, the orchestrator returns (without raising) exactly the
tier-4 fallback: zero findings, the `note` set, and non-empty structured
guidance (instructions, supported deployments, supported frameworks). -/
theorem tier4_fallback_guidance (env : DastEnv) (ws : Workspace)
    (repoUrl branch : String)
    (hdet : detectDeployment env.alive repoUrl branch = none)
    (hdock : (dockerDeployAndScan env ws).result = none) :
    smartScan env ws repoUrl branch none =
      (.ok (gracefulFallback repoUrl), (dockerDeployAndScan env ws).workspace) ∧
    (gracefulFallback repoUrl).vulnerabilities = [] ∧
    (gracefulFallback repoUrl).summary.total = 0 ∧
    (gracefulFallback repoUrl).note = some "DAST scanning not possible" ∧
    (gracefulFallback repoUrl).instructions.length = 4 ∧
    (gracefulFallback repoUrl).supportedDeployments.length = 5 ∧
    (gracefulFallback repoUrl).supportedFrameworks.length = 7 := by
  refine ⟨?_, rfl, rfl, rfl, rfl, rfl, rfl⟩
  unfold smartScan smartScanTier2 smartScanTier34
  simp [hdet, hdock]

/-- Oracle for the tier-4 witness: nothing is alive and no container runtime
is available. -/
def envNothing : DastEnv :=
  { alive := fun _ => false
    scanUrl := fun _ => .error "unreachable" }

/-- Witness for `tier4_fallback_guidance` on a repository URL whose candidates
are all dead and with the container runtime absent. -/
theorem tier4_fallback_guidance_witness :
    (detectDeployment envNothing.alive "https://github.com/alice/app" "main" = none ∧
     (dockerDeployAndScan envNothing ⟨[], none⟩).result = none) ∧
    (smartScan envNothing ⟨[], none⟩ "https://github.com/alice/app" "main" none =
      (.ok (gracefulFallback "https://github.com/alice/app"),
       (dockerDeployAndScan envNothing ⟨[], none⟩).workspace) ∧
     (gracefulFallback "https://github.com/alice/app").vulnerabilities = [] ∧
     (gracefulFallback "https://github.com/alice/app").summary.total = 0 ∧
     (gracefulFallback "https://github.com/alice/app").note =
       some "DAST scanning not possible" ∧
     (gracefulFallback "https://github.com/alice/app").instructions.length = 4 ∧
     (gracefulFallback "https://github.com/alice/app").supportedDeployments.length = 5 ∧
     (gracefulFallback "https://github.com/alice/app").supportedFrameworks.length = 7) :=
  ⟨⟨by decide, by decide⟩,
   tier4_fallback_guidance envNothing ⟨[], none⟩ "https://github.com/alice/app" "main"
     (by decide) (by decide)⟩

/-! ## Repository fetcher (github_scanner.py lines 26-123, `GitHubScanner.clone_repository`) -/

/-- github_scanner.py line 76: each attempt runs with `timeout=900` (15 minutes). -/
def cloneAttemptTimeoutSeconds : Nat := 900

/-- github_scanner.py line 62: `max_retries = 3`. -/
def cloneMaxRetries : Nat := 3

/-- The outcome of one `git clone` subprocess invocation. -/
inductive CloneAttemptOutcome where
  | success
  | fail (stderr : String)
  | timeout
  deriving Repr, DecidableEq

/-- The oracle for the clone loop: the outcome of each (1-based) attempt and
whether a failed attempt left a partial clone directory behind
(`self.repo_path.exists()` before the removal). -/
structure CloneEnv where
  attemptOutcome : Nat → CloneAttemptOutcome
  leavesPartial : Nat → Bool

/-- The externally visible filesystem/process events of one clone call. -/
inductive CloneEvent where
  | attemptStart (n : Nat)
  | removePartialClone
  | cleanupWorkspace
  deriving Repr, DecidableEq

/-- What `clone_repository` produced: the returned repository path or the
raised (classified) error message, the recorded events, and whether the
temporary workspace still exists when the call returns. -/
structure CloneResult where
  outcome : Except String String
  events : List CloneEvent
  workspaceRetained : Bool
  deriving Repr, DecidableEq

/-- Python `'/'.split`-style splitting of a character list on `'/'`. -/
def splitOnSlash : List Char → List (List Char)
  | [] => [[]]
  | c :: rest =>
    let r := splitOnSlash rest
    if c = '/' then [] :: r
    else (c :: r.headD []) :: r.tail

/-- github_scanner.py line 48:
`repo_url.rstrip('/').split('/')[-1].replace('.git', '')` — the name of the
clone directory inside the temporary workspace. -/
def repoNameOf (repoUrl : String) : String :=
  let trimmed := (repoUrl.data.reverse.dropWhile (· = '/')).reverse
  pyRemoveGit ⟨(splitOnSlash trimmed).getLastD []⟩

/-- github_scanner.py lines 61-108: the retry loop over
`range(1, max_retries + 1)`, written as recursion over the list of remaining
attempt numbers.  On success the loop returns; on a failed or timed-out
attempt that is not the last, the partial clone directory is removed when it
exists and the loop retries immediately (no backoff); on the last attempt the
wrapped error message is raised. -/
def cloneFrom (env : CloneEnv) : List Nat → Except String Unit × List CloneEvent
  | [] => (.error "clone loop exhausted", [])
  | [attempt] =>
    match env.attemptOutcome attempt with
    | .success => (.ok (), [.attemptStart attempt])
    | .fail stderr =>
      (.error ("Git clone failed after 3 attempts: " ++ stderr),
       [.attemptStart attempt])
    | .timeout =>
      (.error "Repository clone timeout after 3 attempts (>15 minutes each)",
       [.attemptStart attempt])
  | attempt :: next :: rest =>
    match env.attemptOutcome attempt with
    | .success => (.ok (), [.attemptStart attempt])
    | _ =>
      ((cloneFrom env (next :: rest)).1,
       .attemptStart attempt ::
         ((if env.leavesPartial attempt then [CloneEvent.removePartialClone] else []) ++
          (cloneFrom env (next :: rest)).2))

/-- github_scanner.py lines 116-123: after cleanup, pack/fetch transport
failures are re-surfaced as the repository-size/network message, everything
else as the generic clone failure. -/
def classifyCloneError (msg : String) : String :=
  if pyContains msg "invalid index-pack output" ∨ pyContains msg "fetch-pack" then
    "Git clone failed due to network issues or repository size. The repository may be too large. Try a smaller repository first. Original error: " ++ msg
  else
    "Failed to clone repository: " ++ msg

/-- github_scanner.py lines 26-123, `GitHubScanner.clone_repository`: run the
retry loop; on success return the repository path (workspace-relative clone
directory name) with the workspace retained; on terminal failure the outer
handler calls `self.cleanup()` — removing the whole temporary workspace, and
with it any partial clone — and re-raises the classified error. -/
def cloneRepository (env : CloneEnv) (repoUrl : String) : CloneResult :=
  match cloneFrom env [1, 2, 3] with
  | (.ok _, evs) => ⟨.ok (repoNameOf repoUrl), evs, true⟩
  | (.error msg, evs) =>
    ⟨.error (classifyCloneError msg), evs ++ [.cleanupWorkspace], false⟩

/-- Whether a clone attempt outcome is a failure (non-zero exit or timeout). -/
def isFailureOutcome : CloneAttemptOutcome → Bool
  | .success => false
  | .fail _ => true
  | .timeout => true

/-- Whether an event is the start of a clone attempt. -/
def isAttemptStart : CloneEvent → Bool
  | .attemptStart _ => true
  | _ => false

/-- The number of clone attempts recorded in an event list. -/
def attemptCount (evs : List CloneEvent) : Nat := evs.countP isAttemptStart

/-- Helper: the retry loop starts at most one attempt per remaining slot. -/
theorem cloneFrom_attemptCount_le (env : CloneEnv) (l : List Nat) :
    attemptCount (cloneFrom env l).2 ≤ l.length := by
  induction l with
  | nil => simp [cloneFrom, attemptCount]
  | cons a rest ih =>
    cases rest with
    | nil =>
      cases h : env.attemptOutcome a <;>
        simp [cloneFrom, h, attemptCount, isAttemptStart]
    | cons b rs =>
      cases h : env.attemptOutcome a with
      | success => simp [cloneFrom, h, attemptCount, isAttemptStart]
      | fail s =>
        simp only [cloneFrom, h, attemptCount, List.countP_cons, List.countP_append,
          List.length_cons, isAttemptStart] at ih ⊢
        split <;> simp [List.countP_cons, isAttemptStart] <;> omega
      | timeout =>
        simp only [cloneFrom, h, attemptCount, List.countP_cons, List.countP_append,
          List.length_cons, isAttemptStart] at ih ⊢
        split <;> simp [List.countP_cons, isAttemptStart] <;> omega

/-- Helper: a pattern occurring in a string still occurs after prefixing. -/
theorem containsPattern_append_of_right {pat l2 : List Char} (l1 : List Char)
    (h : containsPattern pat l2 = true) : containsPattern pat (l1 ++ l2) = true := by
  induction l1 with
  | nil => simpa using h
  | cons c cs ih => simp [containsPattern, ih]

/-- Helper: Python substring containment survives prefixing. -/
theorem pyContains_append_right {hay needle : String} (pre : String)
    (h : pyContains hay needle = true) : pyContains (pre ++ hay) needle = true := by
  unfold pyContains at *
  rw [String.data_append]
  exact containsPattern_append_of_right _ h

/-- Helper: a terminal error whose stderr mentions `fetch-pack` classifies as
the repository-size/network message. -/
theorem classifyCloneError_fetchPack {ef : String} (pre : String)
    (h : pyContains ef "fetch-pack" = true) :
    classifyCloneError (pre ++ ef) =
      "Git clone failed due to network issues or repository size. The repository may be too large. Try a smaller repository first. Original error: " ++ (pre ++ ef) := by
  unfold classifyCloneError
  rw [if_pos (Or.inr (pyContains_append_right pre h))]

/-- C6: the clone makes at most 3 attempts, each with a 15-minute (900 s)
timeout; a run that fails twice and succeeds on the third attempt returns the
repository path after exactly 3 attempts, removing the partial clone before
each retry; after 3 consecutive failures a classified error is raised (a
`fetch-pack` stderr becomes the repository-too-large/network message) and the
workspace is cleaned up, leaving no partial clone artifacts. -/
theorem clone_retry_and_classification
    (env envS envF : CloneEnv) (url ef : String)
    (hS1 : isFailureOutcome (envS.attemptOutcome 1) = true)
    (hS2 : isFailureOutcome (envS.attemptOutcome 2) = true)
    (hS3 : envS.attemptOutcome 3 = .success)
    (hSP : ∀ n, envS.leavesPartial n = true)
    (hF1 : isFailureOutcome (envF.attemptOutcome 1) = true)
    (hF2 : isFailureOutcome (envF.attemptOutcome 2) = true)
    (hF3 : envF.attemptOutcome 3 = .fail ef)
    (hFP : ∀ n, envF.leavesPartial n = true)
    (hFsub : pyContains ef "fetch-pack" = true) :
    (cloneMaxRetries = 3 ∧ cloneAttemptTimeoutSeconds = 900) ∧
    attemptCount (cloneRepository env url).events ≤ 3 ∧
    ((cloneRepository envS url).outcome = .ok (repoNameOf url) ∧
     (cloneRepository envS url).events =
       [.attemptStart 1, .removePartialClone, .attemptStart 2, .removePartialClone,
        .attemptStart 3] ∧
     attemptCount (cloneRepository envS url).events = 3 ∧
     (cloneRepository envS url).workspaceRetained = true) ∧
    ((cloneRepository envF url).outcome =
       .error ("Git clone failed due to network issues or repository size. The repository may be too large. Try a smaller repository first. Original error: " ++
         ("Git clone failed after 3 attempts: " ++ ef)) ∧
     (cloneRepository envF url).workspaceRetained = false ∧
     CloneEvent.cleanupWorkspace ∈ (cloneRepository envF url).events ∧
     attemptCount (cloneRepository envF url).events = 3) := by
  refine ⟨⟨rfl, rfl⟩, ?_, ?_, ?_⟩
  · unfold cloneRepository
    have hb := cloneFrom_attemptCount_le env [1, 2, 3]
    split
    · next evs heq =>
      simp_all [attemptCount]
    · next msg evs heq =>
      simp_all [attemptCount, List.countP_append, isAttemptStart]
  · cases h1 : envS.attemptOutcome 1 with
    | success => rw [h1] at hS1; exact absurd hS1 (by simp [isFailureOutcome])
    | fail s1 =>
      cases h2 : envS.attemptOutcome 2 with
      | success => rw [h2] at hS2; exact absurd hS2 (by simp [isFailureOutcome])
      | fail s2 =>
        simp [cloneRepository, cloneFrom, h1, h2, hS3, hSP 1, hSP 2,
          attemptCount, isAttemptStart]
      | timeout =>
        simp [cloneRepository, cloneFrom, h1, h2, hS3, hSP 1, hSP 2,
          attemptCount, isAttemptStart]
    | timeout =>
      cases h2 : envS.attemptOutcome 2 with
      | success => rw [h2] at hS2; exact absurd hS2 (by simp [isFailureOutcome])
      | fail s2 =>
        simp [cloneRepository, cloneFrom, h1, h2, hS3, hSP 1, hSP 2,
          attemptCount, isAttemptStart]
      | timeout =>
        simp [cloneRepository, cloneFrom, h1, h2, hS3, hSP 1, hSP 2,
          attemptCount, isAttemptStart]
  · have hclass := classifyCloneError_fetchPack "Git clone failed after 3 attempts: " hFsub
    cases h1 : envF.attemptOutcome 1 with
    | success => rw [h1] at hF1; exact absurd hF1 (by simp [isFailureOutcome])
    | fail s1 =>
      cases h2 : envF.attemptOutcome 2 with
      | success => rw [h2] at hF2; exact absurd hF2 (by simp [isFailureOutcome])
      | fail s2 =>
        simp [cloneRepository, cloneFrom, h1, h2, hF3, hFP 1, hFP 2, hclass,
          attemptCount, List.countP_append, List.countP_cons, isAttemptStart]
      | timeout =>
        simp [cloneRepository, cloneFrom, h1, h2, hF3, hFP 1, hFP 2, hclass,
          attemptCount, List.countP_append, List.countP_cons, isAttemptStart]
    | timeout =>
      cases h2 : envF.attemptOutcome 2 with
      | success => rw [h2] at hF2; exact absurd hF2 (by simp [isFailureOutcome])
      | fail s2 =>
        simp [cloneRepository, cloneFrom, h1, h2, hF3, hFP 1, hFP 2, hclass,
          attemptCount, List.countP_append, List.countP_cons, isAttemptStart]
      | timeout =>
        simp [cloneRepository, cloneFrom, h1, h2, hF3, hFP 1, hFP 2, hclass,
          attemptCount, List.countP_append, List.countP_cons, isAttemptStart]

/-- Concrete clone oracle that fails twice and succeeds on the third attempt. -/
def cloneEnvThird : CloneEnv :=
  ⟨fun n => if n = 3 then .success else .fail "early EOF", fun _ => true⟩

/-- Concrete clone oracle that fails on all attempts, the last with a
`fetch-pack` transport error. -/
def cloneEnvAllFail : CloneEnv :=
  ⟨fun n => if n = 3 then .fail "fetch-pack: invalid index-pack output" else .timeout,
   fun _ => true⟩

/-- Witness for `clone_retry_and_classification` at the two concrete oracles. -/
theorem clone_retry_and_classification_witness :
    (cloneMaxRetries = 3 ∧ cloneAttemptTimeoutSeconds = 900) ∧
    attemptCount (cloneRepository cloneEnvThird "https://github.com/a/b.git").events ≤ 3 ∧
    ((cloneRepository cloneEnvThird "https://github.com/a/b.git").outcome =
       .ok (repoNameOf "https://github.com/a/b.git") ∧
     (cloneRepository cloneEnvThird "https://github.com/a/b.git").events =
       [.attemptStart 1, .removePartialClone, .attemptStart 2, .removePartialClone,
        .attemptStart 3] ∧
     attemptCount (cloneRepository cloneEnvThird "https://github.com/a/b.git").events = 3 ∧
     (cloneRepository cloneEnvThird "https://github.com/a/b.git").workspaceRetained = true) ∧
    ((cloneRepository cloneEnvAllFail "https://github.com/a/b.git").outcome =
       .error ("Git clone failed due to network issues or repository size. The repository may be too large. Try a smaller repository first. Original error: " ++
         ("Git clone failed after 3 attempts: " ++ "fetch-pack: invalid index-pack output")) ∧
     (cloneRepository cloneEnvAllFail "https://github.com/a/b.git").workspaceRetained = false ∧
     CloneEvent.cleanupWorkspace ∈
       (cloneRepository cloneEnvAllFail "https://github.com/a/b.git").events ∧
     attemptCount (cloneRepository cloneEnvAllFail "https://github.com/a/b.git").events = 3) :=
  clone_retry_and_classification cloneEnvThird cloneEnvThird cloneEnvAllFail
    "https://github.com/a/b.git" "fetch-pack: invalid index-pack output"
    (by decide) (by decide) (by decide) (fun n => rfl)
    (by decide) (by decide) (by decide) (fun n => rfl) (by decide)

/-! ## Static scanner adapter (github_scanner.py lines 149-299, `SemgrepScanner.scan`) -/

/-- One entry of Semgrep's JSON `results` list, restricted to the keys the
adapter reads (absent keys as `none`; the cwe/owasp metadata lists are not
modelled). -/
structure SemgrepRawFinding where
  checkId : Option String := none
  severity : Option String := none
  message : Option String := none
  path : Option String := none
  line : Option Nat := none
  recommendation : Option String := none
  deriving Repr, DecidableEq

/-- What the adapter saw on Semgrep's stdout. -/
inductive SemgrepStdout where
  | empty
  | malformed
  | parsed (results : List SemgrepRawFinding)
  deriving Repr, DecidableEq

/-- The outcome of the Semgrep subprocess. -/
inductive SemgrepRunOutcome where
  | timeout
  | completed (returncode : Int) (stdout : SemgrepStdout) (stderr : String)
  deriving Repr, DecidableEq

/-- The Semgrep tool-environment oracle: executable resolution (PATH, then the
venv fallback location) and the subprocess outcome. -/
structure SemgrepEnv where
  whichSemgrep : Bool
  venvSemgrep : Bool
  runOutcome : SemgrepRunOutcome
  deriving Repr, DecidableEq

/-- github_scanner.py lines 240-250: one raw Semgrep result mapped to the
normalized finding shape. -/
def semgrepConvert (f : SemgrepRawFinding) : Finding :=
  { title := f.checkId.getD "Unknown vulnerability"
    severity := semgrepNormalizeSeverity f.severity
    description := f.message.getD "No description"
    file := f.path.getD ""
    line := f.line.getD 0
    recommendation := f.recommendation.getD "Review and fix the vulnerability" }

/-- github_scanner.py lines 149-299, `SemgrepScanner.scan`: missing executable
raises inside the `try` and is converted to an error result by the final
handler; timeout and `returncode > 1` become error results; `returncode ≤ 1`
with empty or malformed stdout becomes zero findings with no error; parsed
output is converted and summarized.  The adapter never lets an exception
propagate. -/
def semgrepScan (env : SemgrepEnv) : Except String ScanToolResult :=
  if ¬ (env.whichSemgrep ∨ env.venvSemgrep) then
    .ok { tool := "Semgrep", scanType := "SAST",
          error := some "Semgrep executable not found. Please ensure it's installed." }
  else
    match env.runOutcome with
    | .timeout =>
      .ok { tool := "Semgrep", scanType := "SAST",
            error := some "Scan timeout (>10 minutes)" }
    | .completed rc stdout stderr =>
      if rc > 1 then
        .ok { tool := "Semgrep", scanType := "SAST",
              error := some (if stderr ≠ "" then stderr else "Return code: " ++ toString rc) }
      else
        match stdout with
        | .empty => .ok { tool := "Semgrep", scanType := "SAST" }
        | .malformed => .ok { tool := "Semgrep", scanType := "SAST" }
        | .parsed results =>
          .ok { tool := "Semgrep", scanType := "SAST",
                vulnerabilities := results.map semgrepConvert,
                summary := mkSummary (results.map semgrepConvert) }

/-! ## Dependency scanner adapter (github_scanner.py lines 302-421, `SafetyScanner.scan`) -/

/-- One entry of Safety's JSON output, restricted to the keys the adapter reads. -/
structure SafetyRawFinding where
  package : Option String := none
  advisory : Option String := none
  installedVersion : Option String := none
  cve : Option String := none
  fixedVersion : Option String := none
  deriving Repr, DecidableEq

/-- What the adapter saw on Safety's stdout (`json.loads(result.stdout) if
result.stdout else []`, decode errors as `[]`). -/
inductive SafetyStdout where
  | empty
  | malformed
  | parsed (results : List SafetyRawFinding)
  deriving Repr, DecidableEq

/-- The outcome of the Safety subprocess. -/
inductive SafetyRunOutcome where
  | timeout
  | completed (stdout : SafetyStdout)
  deriving Repr, DecidableEq

/-- The Safety tool-environment oracle. -/
structure SafetyEnv where
  whichSafety : Bool
  venvSafety : Bool
  runOutcome : SafetyRunOutcome
  deriving Repr, DecidableEq

/-- github_scanner.py lines 320-324: the ordered manifest locations. -/
def safetyManifests : List String :=
  ["requirements.txt", "requirements/base.txt", "requirements/prod.txt"]

/-- github_scanner.py lines 332-341: the explicit no-manifest result — zero
findings, a `note`, no `error`, returned before the tool is ever invoked. -/
def safetyNoManifestResult : ScanToolResult :=
  { tool := "Safety", scanType := "SCA",
    note := some "No requirements.txt found" }

/-- github_scanner.py lines 380-392: one raw Safety entry mapped to the
normalized finding shape (severity hard-coded HIGH; an empty `fixed_version`
is falsy, giving the generic recommendation). -/
def safetyConvert (f : SafetyRawFinding) : Finding :=
  { title := "Vulnerable dependency: " ++ f.package.getD "Unknown"
    severity := "HIGH"
    description := f.advisory.getD "No description"
    packageName := f.package.getD ""
    installedVersion := f.installedVersion.getD ""
    recommendation :=
      match f.fixedVersion with
      | some v => if v ≠ "" then "Upgrade to version " ++ v
                  else "Update to a non-vulnerable version"
      | none => "Update to a non-vulnerable version" }

/-- github_scanner.py lines 302-421, `SafetyScanner.scan`: search the ordered
manifest list first and return the no-manifest note result without invoking
the tool when none exists; a missing executable raises inside the `try` and is
converted to an error result by the final handler; a subprocess timeout is
re-raised as `Exception("Safety scan timeout (>5 minutes)")` from inside the
`except TimeoutExpired` clause and therefore propagates to the caller; a
completed run yields findings with the hard-coded summary (all counted HIGH). -/
def safetyScan (ws : Workspace) (env : SafetyEnv) : Except String ScanToolResult :=
  match safetyManifests.find? (fun rf => decide (rf ∈ ws.files)) with
  | none => .ok safetyNoManifestResult
  | some _ =>
    if ¬ (env.whichSafety ∨ env.venvSafety) then
      .ok { tool := "Safety", scanType := "SCA",
            error := some "Safety executable not found. Please ensure it's installed." }
    else
      match env.runOutcome with
      | .timeout => .error "Safety scan timeout (>5 minutes)"
      | .completed stdout =>
        match stdout with
        | .empty => .ok { tool := "Safety", scanType := "SCA" }
        | .malformed => .ok { tool := "Safety", scanType := "SCA" }
        | .parsed results =>
          .ok { tool := "Safety", scanType := "SCA",
                vulnerabilities := results.map safetyConvert,
                summary := ⟨(results.map safetyConvert).length, 0,
                            (results.map safetyConvert).length, 0, 0⟩ }

/-! ## Dynamic scanner adapters (nuclei_scanner.py, zap_scanner.py) -/

/-- One Nuclei JSONL finding, restricted to the keys the adapter reads. -/
structure NucleiRawFinding where
  name : Option String := none
  severity : Option String := none
  description : Option String := none
  matchedAt : Option String := none
  remediation : Option String := none
  deriving Repr, DecidableEq

/-- The outcome of the Nuclei invocation: the template update or the scan run
may exceed its timeout; a completed run yields one parse result per stdout
line (`none` = unparsable line, skipped). -/
inductive NucleiRunOutcome where
  | updateTimeout
  | timeout
  | completed (lines : List (Option NucleiRawFinding))
  deriving Repr, DecidableEq

/-- The Nuclei tool-environment oracle. -/
structure NucleiEnv where
  nucleiFound : Bool
  runOutcome : NucleiRunOutcome
  deriving Repr, DecidableEq

/-- nuclei_scanner.py lines 137-152: one raw finding mapped to the normalized
shape. -/
def nucleiConvert (targetUrl : String) (f : NucleiRawFinding) : Finding :=
  { title := f.name.getD "Unknown vulnerability"
    severity := nucleiNormalizeSeverity f.severity
    description := f.description.getD "No description"
    url := f.matchedAt.getD targetUrl
    recommendation := f.remediation.getD "Review and fix the vulnerability" }

/-- nuclei_scanner.py lines 52-196, `NucleiScanner.scan` (default
`timeout=300`): when the executable was not found, the adapter raises before
entering its `try` block, so the exception propagates; timeouts become an
error result; a completed run converts each parsable JSONL line. -/
def nucleiScan (env : NucleiEnv) (targetUrl : String) : Except String ScanToolResult :=
  if ¬ env.nucleiFound then
    .error "Nuclei not installed. Install with: choco install nuclei (Windows) or go install -v github.com/projectdiscovery/nuclei/v3/cmd/nuclei@latest"
  else
    match env.runOutcome with
    | .updateTimeout =>
      .ok { tool := "Nuclei", scanType := "DAST", targetUrl := some targetUrl,
            error := some "Scan timeout (>300s)" }
    | .timeout =>
      .ok { tool := "Nuclei", scanType := "DAST", targetUrl := some targetUrl,
            error := some "Scan timeout (>300s)" }
    | .completed lines =>
      .ok { tool := "Nuclei", scanType := "DAST", targetUrl := some targetUrl,
            vulnerabilities := (lines.filterMap id).map (nucleiConvert targetUrl),
            summary := mkSummary ((lines.filterMap id).map (nucleiConvert targetUrl)) }

/-- One ZAP alert, restricted to the keys the adapter reads. -/
structure ZapAlert where
  name : Option String := none
  riskcode : Option String := none
  desc : Option String := none
  url : Option String := none
  solution : Option String := none
  deriving Repr, DecidableEq

/-- The outcome of the ZAP baseline run: timeout, some other exception, or a
completed run with (`some`) or without (`none`) a JSON report file. -/
inductive ZapRunOutcome where
  | timeout
  | raised
  | completed (alerts : Option (List ZapAlert))
  deriving Repr, DecidableEq

/-- The ZAP tool-environment oracle. -/
structure ZapEnv where
  zapFound : Bool
  baselineScriptExists : Bool
  runOutcome : ZapRunOutcome
  deriving Repr, DecidableEq

/-- zap_scanner.py lines 122-134: one alert mapped to the normalized shape
(the alert's `solution` feeds the recommendation field). -/
def zapConvert (targetUrl : String) (a : ZapAlert) : Finding :=
  { title := a.name.getD "Unknown"
    severity := mapZapRisk (a.riskcode.getD "0")
    description := a.desc.getD ""
    url := a.url.getD targetUrl
    recommendation := a.solution.getD "" }

/-- zap_scanner.py lines 161-209, `ZAPScanner._generate_sample_results`: the
hard-coded three-finding sample result used whenever a real scan is not
possible — it carries findings and a note but no error field. -/
def zapSampleResults (targetUrl : String) : ScanToolResult :=
  { tool := "OWASP ZAP (Sample Data)", scanType := "DAST", targetUrl := some targetUrl,
    vulnerabilities := [
      { title := "Missing Anti-CSRF Tokens", severity := "HIGH",
        description := "No Anti-CSRF tokens were found in a HTML submission form. A cross-site request forgery is an attack that involves forcing a victim to send an HTTP request to a target destination without their knowledge or intent.",
        url := targetUrl,
        recommendation := "Implement anti-CSRF tokens in all forms" },
      { title := "X-Frame-Options Header Not Set", severity := "MEDIUM",
        description := "X-Frame-Options header is not included in the HTTP response to protect against 'ClickJacking' attacks.",
        url := targetUrl,
        recommendation := "Add X-Frame-Options: DENY or SAMEORIGIN header" },
      { title := "Content Security Policy (CSP) Header Not Set", severity := "MEDIUM",
        description := "Content Security Policy (CSP) is an added layer of security that helps to detect and mitigate certain types of attacks.",
        url := targetUrl,
        recommendation := "Implement Content-Security-Policy header" }],
    summary := ⟨3, 0, 1, 2, 0⟩,
    note := some "This is sample data for demonstration. Install Python in ZAP directory for real scans." }

/-- zap_scanner.py lines 43-112, `ZAPScanner.scan`: when ZAP was not found the
adapter raises before entering its `try` block, so the exception propagates;
a missing baseline script, a timeout, any other exception, or a completed run
without a report file all return the sample-data result; a completed run with
a report is parsed and normalized. -/
def zapScan (env : ZapEnv) (targetUrl : String) : Except String ScanToolResult :=
  if ¬ env.zapFound then
    .error "OWASP ZAP not found. Please install from https://www.zaproxy.org/download/"
  else if ¬ env.baselineScriptExists then
    .ok (zapSampleResults targetUrl)
  else
    match env.runOutcome with
    | .timeout => .ok (zapSampleResults targetUrl)
    | .raised => .ok (zapSampleResults targetUrl)
    | .completed none => .ok (zapSampleResults targetUrl)
    | .completed (some alerts) =>
      .ok { tool := "OWASP ZAP", scanType := "DAST", targetUrl := some targetUrl,
            vulnerabilities := alerts.map (zapConvert targetUrl),
            summary := mkSummary (alerts.map (zapConvert targetUrl)) }

/-! ## Theorems about adapter error handling -/

/-- C3 counterexample: the claim that every tool-execution failure yields a
`ScanToolResult` with empty findings and a non-null error, never an exception,
is false three times over: the Safety adapter re-raises on subprocess timeout,
and the Nuclei and ZAP adapters raise when their executable is missing. -/
theorem tool_failure_exception_propagates :
    safetyScan ⟨["requirements.txt"], none⟩ ⟨true, false, .timeout⟩ =
      .error "Safety scan timeout (>5 minutes)" ∧
    nucleiScan ⟨false, .completed []⟩ "http://target" =
      .error "Nuclei not installed. Install with: choco install nuclei (Windows) or go install -v github.com/projectdiscovery/nuclei/v3/cmd/nuclei@latest" ∧
    zapScan ⟨false, false, .timeout⟩ "http://target" =
      .error "OWASP ZAP not found. Please install from https://www.zaproxy.org/download/" := by
  refine ⟨by decide, by decide, by decide⟩

/-- C3 (amended): the Semgrep adapter never raises and converts its failure
modes to empty-findings error results; the Safety adapter raises exactly on
subprocess timeout; the Nuclei adapter raises exactly when its executable is
missing; the ZAP adapter raises when its executable is missing and converts
timeouts (and other failures) into the three-finding sample-data result with
no error field rather than an empty error result. -/
theorem tool_failures_structured_amended
    (se : SemgrepEnv) (ws : Workspace) (sa : SafetyEnv) (ne : NucleiEnv)
    (ze : ZapEnv) (u : String)
    (hsw : se.whichSemgrep = true) (hst : se.runOutcome = .timeout)
    (hman : "requirements.txt" ∈ ws.files)
    (hsaw : sa.whichSafety = true) (hsat : sa.runOutcome = .timeout)
    (hne : ne.nucleiFound = false)
    (hzf : ze.zapFound = true) (hzb : ze.baselineScriptExists = true)
    (hzt : ze.runOutcome = .timeout) :
    (∀ e : SemgrepEnv, ∃ r, semgrepScan e = .ok r) ∧
    semgrepScan se =
      .ok { tool := "Semgrep", scanType := "SAST",
            error := some "Scan timeout (>10 minutes)" } ∧
    safetyScan ws sa = .error "Safety scan timeout (>5 minutes)" ∧
    nucleiScan ne u = .error "Nuclei not installed. Install with: choco install nuclei (Windows) or go install -v github.com/projectdiscovery/nuclei/v3/cmd/nuclei@latest" ∧
    (zapScan ze u = .ok (zapSampleResults u) ∧
     (zapSampleResults u).error = none ∧
     (zapSampleResults u).vulnerabilities.length = 3) := by
  refine ⟨?_, ?_, ?_, ?_, ?_, rfl, rfl⟩
  · intro e
    unfold semgrepScan
    repeat' split
    all_goals exact ⟨_, rfl⟩
  · unfold semgrepScan
    simp [hsw, hst]
  · unfold safetyScan
    have hfind : safetyManifests.find? (fun rf => decide (rf ∈ ws.files)) =
        some "requirements.txt" := by
      simp [safetyManifests, List.find?, hman]
    rw [hfind]
    simp [hsaw, hsat]
  · unfold nucleiScan
    simp [hne]
  · unfold zapScan
    simp [hzf, hzb, hzt]

/-- Witness for `tool_failures_structured_amended` at concrete oracles. -/
theorem tool_failures_structured_amended_witness :
    (∀ e : SemgrepEnv, ∃ r, semgrepScan e = .ok r) ∧
    semgrepScan ⟨true, false, .timeout⟩ =
      .ok { tool := "Semgrep", scanType := "SAST",
            error := some "Scan timeout (>10 minutes)" } ∧
    safetyScan ⟨["requirements.txt", "app.py"], none⟩ ⟨true, false, .timeout⟩ =
      .error "Safety scan timeout (>5 minutes)" ∧
    nucleiScan ⟨false, .completed []⟩ "http://zap-target" =
      .error "Nuclei not installed. Install with: choco install nuclei (Windows) or go install -v github.com/projectdiscovery/nuclei/v3/cmd/nuclei@latest" ∧
    (zapScan ⟨true, true, .timeout⟩ "http://zap-target" =
       .ok (zapSampleResults "http://zap-target") ∧
     (zapSampleResults "http://zap-target").error = none ∧
     (zapSampleResults "http://zap-target").vulnerabilities.length = 3) :=
  tool_failures_structured_amended ⟨true, false, .timeout⟩
    ⟨["requirements.txt", "app.py"], none⟩ ⟨true, false, .timeout⟩
    ⟨false, .completed []⟩ ⟨true, true, .timeout⟩ "http://zap-target"
    rfl rfl (by decide) rfl rfl rfl rfl rfl rfl

/-- C10: when none of the three ordered manifest locations exists in the
workspace, the dependency adapter returns — without invoking the external tool
(the result is independent of the whole tool oracle) — the zero-finding
result annotated with the no-manifest note and no error field. -/
theorem no_manifest_note_result (ws : Workspace) (env env2 : SafetyEnv)
    (h1 : "requirements.txt" ∉ ws.files)
    (h2 : "requirements/base.txt" ∉ ws.files)
    (h3 : "requirements/prod.txt" ∉ ws.files) :
    safetyScan ws env = .ok safetyNoManifestResult ∧
    safetyScan ws env2 = safetyScan ws env ∧
    safetyNoManifestResult.vulnerabilities = [] ∧
    safetyNoManifestResult.note = some "No requirements.txt found" ∧
    safetyNoManifestResult.error = none := by
  have hfind : safetyManifests.find? (fun rf => decide (rf ∈ ws.files)) = none := by
    simp [safetyManifests, List.find?, h1, h2, h3]
  refine ⟨?_, ?_, rfl, rfl, rfl⟩
  · unfold safetyScan
    rw [hfind]
  · unfold safetyScan
    rw [hfind]

/-- Witness for `no_manifest_note_result` on a manifest-free workspace and two
different tool oracles. -/
theorem no_manifest_note_result_witness :
    ("requirements.txt" ∉ (Workspace.mk ["app.py"] none).files ∧
     "requirements/base.txt" ∉ (Workspace.mk ["app.py"] none).files ∧
     "requirements/prod.txt" ∉ (Workspace.mk ["app.py"] none).files) ∧
    (safetyScan ⟨["app.py"], none⟩ ⟨true, false, .timeout⟩ =
       .ok safetyNoManifestResult ∧
     safetyScan ⟨["app.py"], none⟩ ⟨false, false, .completed .empty⟩ =
       safetyScan ⟨["app.py"], none⟩ ⟨true, false, .timeout⟩ ∧
     safetyNoManifestResult.vulnerabilities = [] ∧
     safetyNoManifestResult.note = some "No requirements.txt found" ∧
     safetyNoManifestResult.error = none) :=
  ⟨⟨by decide, by decide, by decide⟩,
   no_manifest_note_result ⟨["app.py"], none⟩ ⟨true, false, .timeout⟩
     ⟨false, false, .completed .empty⟩ (by decide) (by decide) (by decide)⟩

end SecureFlow
